import Mathlib

/-!
Verification of the dense tensor core of the mdarray repository.

The embedded code lives in src/native/cpu/tensor.rs together with the trait
declarations in src/core/dimension.rs and src/core/factory.rs.  The struct
Tensor holds a contiguous buffer (a Rust Vec, embedded as a List) and a shape
(a SmallVec of usize extents, embedded as a List of Nat).  The element count
is computed by shape.iter().product() on usize; usize arithmetic on a 64-bit
target is embedded as Nat arithmetic wrapped modulo 2 ^ 64, which is the
defined behavior of the compiled (release-profile) Rust arithmetic when the
mathematical product overflows.
-/

namespace Mdarray

/-- Number of values of the Rust usize type on a 64-bit target. -/
def USIZE : Nat := 2 ^ 64

/-- Embeds the element-count computation shape.iter().product() performed on
usize values: the mathematical product of the extents, wrapped modulo 2 ^ 64. -/
def usizeProd (shape : List Nat) : Nat := shape.prod % USIZE

/-- Embeds struct Tensor of src/native/cpu/tensor.rs: data is the Vec of
elements, shape is the SmallVec of per-axis extents.  The SmallVec inline
capacity of 5 is a storage micro-optimization with no observable behavior, so
the shape is embedded as a plain list. -/
structure Tensor (T : Type) where
  data : List T
  shape : List Nat

/-- Embeds Tensor::fill: computes numel as the usize product of the shape,
allocates the buffer vec![value; numel] and copies the shape verbatim
(SmallVec::from). -/
def Tensor.fill {T : Type} (value : T) (shape : List Nat) : Tensor T :=
  Tensor.mk (List.replicate (usizeProd shape) value) shape

/-- Embeds Tensor::zeros: Self::fill(T::zero(), shape). -/
def Tensor.zeros {T : Type} [Zero T] (shape : List Nat) : Tensor T :=
  Tensor.fill 0 shape

/-- Embeds Tensor::ones: Self::fill(T::one(), shape). -/
def Tensor.ones {T : Type} [One T] (shape : List Nat) : Tensor T :=
  Tensor.fill 1 shape

/-- Embeds Tensor::numel: self.shape.iter().product(), recomputed from the
shape field on every call (the buffer is never consulted). -/
def Tensor.numel {T : Type} (t : Tensor T) : Nat := usizeProd t.shape

/-- Embeds Tensor::size: self.numel() * size_of::<T>() in usize arithmetic.
The compile-time constant size_of::<T>() is passed explicitly as sizeofT. -/
def Tensor.size {T : Type} (t : Tensor T) (sizeofT : Nat) : Nat :=
  (t.numel * sizeofT) % USIZE

/-- Embeds the derived Clone of Tensor: a field-wise duplicate; Vec and
SmallVec clone copy their contents, and the elements are Copy. -/
def Tensor.clone {T : Type} (t : Tensor T) : Tensor T :=
  Tensor.mk t.data t.shape

/-- The tensors reachable through the public interface: the three factory
constructors and the derived Clone.  No mutating operation exists in the
core, so every reachable value arises this way. -/
inductive Reachable {T : Type} [Zero T] [One T] : Tensor T → Prop where
  | fill (value : T) (shape : List Nat) : Reachable (Tensor.fill value shape)
  | zeros (shape : List Nat) : Reachable (Tensor.zeros shape)
  | ones (shape : List Nat) : Reachable (Tensor.ones shape)
  | clone (t : Tensor T) : Reachable t → Reachable t.clone

/-- Claim C1: for every shape S whose product of extents fits in usize, the
arrays built by fill, zeros and ones all have numel equal to the product of
the entries of S; the empty shape gives numel 1 by the empty-product
convention, and any zero-valued axis makes numel 0. -/
theorem numel_of_factories {T : Type} [Zero T] [One T] (v : T) (S : List Nat)
    (h : S.prod < USIZE) :
    (Tensor.fill v S).numel = S.prod ∧
    (Tensor.zeros S : Tensor T).numel = S.prod ∧
    (Tensor.ones S : Tensor T).numel = S.prod ∧
    (Tensor.fill v ([] : List Nat)).numel = 1 ∧
    (0 ∈ S → (Tensor.fill v S).numel = 0) := by
  have hm : usizeProd S = S.prod := Nat.mod_eq_of_lt h
  refine ⟨hm, hm, hm, ?_, ?_⟩
  · show usizeProd ([] : List Nat) = 1
    norm_num [usizeProd, USIZE]
  intro h0
  show usizeProd S = 0
  simp [usizeProd, List.prod_eq_zero h0]

/-- Witness for C1 at v = 7, S = [2, 3]. -/
theorem numel_of_factories_witness :
    ([2, 3] : List Nat).prod < USIZE ∧
    (Tensor.fill (7 : Int) [2, 3]).numel = ([2, 3] : List Nat).prod :=
  ⟨by decide, (numel_of_factories (7 : Int) [2, 3] (by decide)).1⟩

/-- Claim C2: for every shape S whose product fits in usize, fill(v, S)
returns a buffer of exactly prod S elements, each equal to v; fill(v, [])
yields the one-element buffer [v]. -/
theorem fill_buffer_spec {T : Type} (v : T) (S : List Nat)
    (h : S.prod < USIZE) :
    (Tensor.fill v S).data.length = S.prod ∧
    (∀ x ∈ (Tensor.fill v S).data, x = v) ∧
    (Tensor.fill v ([] : List Nat)).data = [v] := by
  refine ⟨?_, ?_, ?_⟩
  · show (List.replicate (usizeProd S) v).length = S.prod
    rw [List.length_replicate]
    exact Nat.mod_eq_of_lt h
  · intro x hx
    exact List.eq_of_mem_replicate hx
  · show List.replicate (usizeProd ([] : List Nat)) v = [v]
    norm_num [usizeProd, USIZE]

/-- Witness for C2 at v = 5, S = [4, 16]. -/
theorem fill_buffer_spec_witness :
    ([4, 16] : List Nat).prod < USIZE ∧
    (Tensor.fill (5 : Int) [4, 16]).data.length = ([4, 16] : List Nat).prod :=
  ⟨by decide, (fill_buffer_spec (5 : Int) [4, 16] (by decide)).1⟩

/-- Claim C3: every tensor reachable through the public interface (fill,
zeros, ones, clone) satisfies the Dense Array invariant: when its element
count fits in usize, the buffer length equals the product of its shape.  The
observers shape, size and numel are pure functions in this embedding, so they
preserve the invariant trivially. -/
theorem reachable_invariant {T : Type} [Zero T] [One T] {t : Tensor T}
    (hr : Reachable t) :
    t.shape.prod < USIZE → t.data.length = t.shape.prod := by
  induction hr with
  | fill v s =>
      intro h
      show (List.replicate (usizeProd s) v).length = s.prod
      rw [List.length_replicate]
      exact Nat.mod_eq_of_lt h
  | zeros s =>
      intro h
      show (List.replicate (usizeProd s) (0 : T)).length = s.prod
      rw [List.length_replicate]
      exact Nat.mod_eq_of_lt h
  | ones s =>
      intro h
      show (List.replicate (usizeProd s) (1 : T)).length = s.prod
      rw [List.length_replicate]
      exact Nat.mod_eq_of_lt h
  | clone t ht ih =>
      intro h
      exact ih h

/-- Witness for C3 at the reachable tensor fill(5, [4, 16]). -/
theorem reachable_invariant_witness :
    (Tensor.fill (5 : Int) [4, 16]).shape.prod < USIZE ∧
    (Tensor.fill (5 : Int) [4, 16]).data.length =
      (Tensor.fill (5 : Int) [4, 16]).shape.prod :=
  ⟨by decide, reachable_invariant (Reachable.fill (5 : Int) [4, 16]) (by decide)⟩

/-- Claim C4: shape() on the result of fill, zeros or ones returns exactly
the sequence passed in: same length, same values, same order, with no
normalization or reordering. -/
theorem shape_of_factories {T : Type} [Zero T] [One T] (v : T) (S : List Nat) :
    (Tensor.fill v S).shape = S ∧
    (Tensor.zeros S : Tensor T).shape = S ∧
    (Tensor.ones S : Tensor T).shape = S :=
  ⟨rfl, rfl, rfl⟩

/-- Claim C5: whenever the byte count fits in usize, size() equals numel()
times the byte width of the element type; in particular size(fill(v, S))
equals prod S times the byte width when neither computation overflows. -/
theorem size_eq_numel_mul_sizeof {T : Type} (t : Tensor T) (v : T)
    (S : List Nat) (sz : Nat)
    (h1 : t.numel * sz < USIZE) (h2 : S.prod < USIZE)
    (h3 : S.prod * sz < USIZE) :
    t.size sz = t.numel * sz ∧ (Tensor.fill v S).size sz = S.prod * sz := by
  constructor
  · exact Nat.mod_eq_of_lt h1
  · have hn : (Tensor.fill v S).numel = S.prod := Nat.mod_eq_of_lt h2
    show ((Tensor.fill v S).numel * sz) % USIZE = S.prod * sz
    rw [hn]
    exact Nat.mod_eq_of_lt h3

/-- Witness for C5 at a concrete tensor, sz = 4 (the width of f32 or i32),
v = 5, S = [4, 16]. -/
theorem size_eq_numel_mul_sizeof_witness :
    ((Tensor.mk [(1 : Int), 2] [2, 1]).numel * 4 < USIZE ∧
      ([4, 16] : List Nat).prod < USIZE ∧
      ([4, 16] : List Nat).prod * 4 < USIZE) ∧
    ((Tensor.mk [(1 : Int), 2] [2, 1]).size 4 =
        (Tensor.mk [(1 : Int), 2] [2, 1]).numel * 4 ∧
      (Tensor.fill (5 : Int) [4, 16]).size 4 = ([4, 16] : List Nat).prod * 4) :=
  ⟨⟨by decide, by decide, by decide⟩,
    size_eq_numel_mul_sizeof (Tensor.mk [(1 : Int), 2] [2, 1]) (5 : Int)
      [4, 16] 4 (by decide) (by decide) (by decide)⟩

/-- Claim C6: zeros(S) is exactly fill of the additive identity of the
element type, and ones(S) is exactly fill of the multiplicative identity. -/
theorem zeros_ones_eq_fill {T : Type} [Zero T] [One T] (S : List Nat) :
    (Tensor.zeros S : Tensor T) = Tensor.fill (0 : T) S ∧
    (Tensor.ones S : Tensor T) = Tensor.fill (1 : T) S :=
  ⟨rfl, rfl⟩

/-- Claim C7: for every shape containing a zero extent, fill(v, S) returns a
well-formed array with an empty buffer, numel 0 and size 0; the construction
is a total function in this embedding, so no failure or panic occurs. -/
theorem fill_zero_extent {T : Type} (v : T) (S : List Nat) (sz : Nat)
    (h : 0 ∈ S) :
    (Tensor.fill v S).data = [] ∧ (Tensor.fill v S).numel = 0 ∧
    (Tensor.fill v S).size sz = 0 := by
  have hn : (Tensor.fill v S).numel = 0 := by
    show usizeProd S = 0
    simp [usizeProd, List.prod_eq_zero h]
  refine ⟨?_, hn, ?_⟩
  · show List.replicate (usizeProd S) v = []
    have h0 : usizeProd S = 0 := hn
    rw [h0]
    rfl
  · show ((Tensor.fill v S).numel * sz) % USIZE = 0
    rw [hn]
    simp

/-- Witness for C7 at v = 5, S = [4, 0, 3], sz = 4. -/
theorem fill_zero_extent_witness :
    (0 : Nat) ∈ ([4, 0, 3] : List Nat) ∧
    ((Tensor.fill (5 : Int) [4, 0, 3]).data = [] ∧
      (Tensor.fill (5 : Int) [4, 0, 3]).numel = 0 ∧
      (Tensor.fill (5 : Int) [4, 0, 3]).size 4 = 0) :=
  ⟨by decide, fill_zero_extent (5 : Int) [4, 0, 3] 4 (by decide)⟩

/-- Counterexample to claim C8 as stated: the shape [2 ^ 32, 2 ^ 32] has
mathematical product exactly 2 ^ 64, which overflows the usize element-count
computation, yet fill returns a well-formed array (with wrapped element count
0) instead of aborting without returning any array. -/
theorem fill_overflow_counterexample :
    ([2 ^ 32, 2 ^ 32] : List Nat).prod = USIZE ∧
    (Tensor.fill (0 : Int) [2 ^ 32, 2 ^ 32]).data.length = 0 ∧
    (Tensor.fill (0 : Int) [2 ^ 32, 2 ^ 32]).numel = 0 := by
  refine ⟨by decide, ?_, by decide⟩
  show (List.replicate (usizeProd [2 ^ 32, 2 ^ 32]) (0 : Int)).length = 0
  rw [List.length_replicate]
  decide

/-- Claim C8 amended: for a shape whose product of extents overflows usize,
fill(v, S) under the wrapping semantics of the compiled arithmetic does not
abort: it returns a well-formed array whose buffer length and numel both
equal the product modulo 2 ^ 64, still satisfying the buffer-length
invariant; no failure mode other than allocation exhaustion (outside this
embedding) exists for any factory operation. -/
theorem fill_overflow_wraps {T : Type} (v : T) (S : List Nat)
    (h : USIZE ≤ S.prod) :
    (Tensor.fill v S).data.length = S.prod % USIZE ∧
    (Tensor.fill v S).numel = S.prod % USIZE ∧
    (Tensor.fill v S).data.length = (Tensor.fill v S).numel := by
  refine ⟨?_, rfl, ?_⟩
  · show (List.replicate (usizeProd S) v).length = S.prod % USIZE
    rw [List.length_replicate]
    rfl
  · show (List.replicate (usizeProd S) v).length = usizeProd S
    rw [List.length_replicate]

/-- Witness for the amended C8 at the overflowing shape [2 ^ 32, 2 ^ 32]. -/
theorem fill_overflow_wraps_witness :
    USIZE ≤ ([2 ^ 32, 2 ^ 32] : List Nat).prod ∧
    (Tensor.fill (1 : Int) [2 ^ 32, 2 ^ 32]).data.length =
      ([2 ^ 32, 2 ^ 32] : List Nat).prod % USIZE :=
  ⟨by decide, (fill_overflow_wraps (1 : Int) [2 ^ 32, 2 ^ 32] (by decide)).1⟩

/-- Claim C9: shape(), numel() and size() depend only on the shape field:
any two tensors with equal shape sequences and arbitrary buffers give
identical results, and the equalities numel = prod shape and
size = numel * sizeof hold (within usize range) for every tensor value, even
one whose buffer length disagrees with its shape. -/
theorem dimension_depends_only_on_shape {T : Type} (t1 t2 : Tensor T)
    (sz : Nat) (h : t1.shape = t2.shape) :
    t1.numel = t2.numel ∧ t1.size sz = t2.size sz ∧
    (t1.shape.prod < USIZE → t1.numel = t1.shape.prod) ∧
    (t1.numel * sz < USIZE → t1.size sz = t1.numel * sz) := by
  have hn : t1.numel = t2.numel := by
    show usizeProd t1.shape = usizeProd t2.shape
    rw [h]
  refine ⟨hn, ?_, ?_, ?_⟩
  · show (t1.numel * sz) % USIZE = (t2.numel * sz) % USIZE
    rw [hn]
  · intro hp
    exact Nat.mod_eq_of_lt hp
  · intro hs
    exact Nat.mod_eq_of_lt hs

/-- Witness for C9 at two tensors with shape [2] whose buffers differ and
whose buffer lengths (3 and 0) both disagree with the shape product 2. -/
theorem dimension_depends_only_on_shape_witness :
    (Tensor.mk [(1 : Int), 2, 3] [2]).shape = (Tensor.mk ([] : List Int) [2]).shape ∧
    (Tensor.mk [(1 : Int), 2, 3] [2]).numel = (Tensor.mk ([] : List Int) [2]).numel :=
  ⟨rfl, (dimension_depends_only_on_shape (Tensor.mk [(1 : Int), 2, 3] [2])
    (Tensor.mk ([] : List Int) [2]) 8 rfl).1⟩

/-- Claim C10: the duplicate produced by the derived Clone is observably
identical to the original: same shape sequence, same buffer contents, same
numel and same size; the original is untouched (cloning is a pure function
of the original in this embedding). -/
theorem clone_observably_identical {T : Type} (t : Tensor T) (sz : Nat) :
    t.clone.shape = t.shape ∧ t.clone.data = t.data ∧
    t.clone.numel = t.numel ∧ t.clone.size sz = t.size sz :=
  ⟨rfl, rfl, rfl, rfl⟩

end Mdarray
